import Mathlib

/-!
Shallow embedding of `src/pubchem_smiles_automation.py`.

The program is a small REST client around the PubChem API:
* `get_smiles_from_pubchem` (lines 15-57): two sequential HTTP GETs wrapped in
  one `try/except (RequestException, KeyError, IndexError)`;
* `batch_get_smiles` (lines 60-85): a loop with an inter-item `time.sleep`
  building a `pandas.DataFrame` from a list of row dictionaries;
* `process_compounds_from_file` (lines 88-104): file ingestion guarded by
  `except FileNotFoundError`.

Modelling conventions:
* JSON-decoded Python values are the inductive `Json` below (`Json.null` is
  Python `None`, so a function "returning None" returns `Json.null`).  JSON
  numbers are modelled as integers (the program never does arithmetic on
  them), and JSON objects as association lists with distinct keys, looked up
  with `List.lookup`.
* Python exceptions are `PyExc`; a computation that may raise is
  `Except PyExc α`.  `requests` semantics: `requests.get` raises
  `RequestException` on connection errors and timeouts,
  `response.raise_for_status()` raises `HTTPError` (a `RequestException`)
  exactly for status codes 400-599, and `response.json()` raises
  `requests.exceptions.JSONDecodeError` (a `RequestException`) on an
  unparseable body.  All of those are collapsed into
  `PyExc.requestException`.  Subscripting a non-container raises `TypeError`,
  a missing dict key raises `KeyError`, an out-of-range list index raises
  `IndexError`, opening an unreadable existing file raises `PermissionError`.
* The remote service is an oracle `HttpEnv : String → HttpOutcome` mapping a
  request URL to what `requests.get` does for it; the filesystem is an oracle
  `String → OpenOutcome`.
* Observable actions are collected in traces: `get_smiles_from_pubchem`
  returns the list of URLs it actually requested, `batch_get_smiles` returns
  the sequence of per-item resolution calls and sleeps.
* `print` diagnostics and the `time.sleep` duration's real-time effect are
  not modelled beyond the emitted trace events.
-/

/-- A JSON-decoded Python value (`None`, `bool`, number, `str`, `list`,
`dict`).  JSON numbers are restricted to integers. -/
inductive Json where
  | null : Json
  | bool (b : Bool) : Json
  | num (n : Int) : Json
  | str (s : String) : Json
  | arr (xs : List Json) : Json
  | obj (kvs : List (String × Json)) : Json

/-- The Python exceptions relevant to this program. -/
inductive PyExc where
  | requestException : PyExc
  | keyError : PyExc
  | indexError : PyExc
  | typeError : PyExc
  | permissionError : PyExc
deriving DecidableEq

/-- Python truthiness of a JSON-decoded value (`'Found' if smiles else ...`,
line 80). -/
def pyTruthy : Json → Bool
  | .null => false
  | .bool b => b
  | .num n => n != 0
  | .str s => s != ""
  | .arr xs => !xs.isEmpty
  | .obj kvs => !kvs.isEmpty

mutual

/-- Python `repr` of a JSON-decoded value (escaping of exotic characters
inside strings is not modelled). -/
def pyRepr : Json → String
  | .null => "None"
  | .bool true => "True"
  | .bool false => "False"
  | .num n => toString n
  | .str s => "\x27" ++ s ++ "\x27"
  | .arr xs => "[" ++ pyReprList xs ++ "]"
  | .obj kvs => "\x7b" ++ pyReprObj kvs ++ "\x7d"

/-- Comma-separated `repr`s of the elements of a Python list. -/
def pyReprList : List Json → String
  | [] => ""
  | [j] => pyRepr j
  | j :: js => pyRepr j ++ ", " ++ pyReprList js

/-- Comma-separated `key: value` entries of a Python dict. -/
def pyReprObj : List (String × Json) → String
  | [] => ""
  | [(k, v)] => "\x27" ++ k ++ "\x27: " ++ pyRepr v
  | (k, v) :: kvs => "\x27" ++ k ++ "\x27: " ++ pyRepr v ++ ", " ++ pyReprObj kvs

end

/-- Python `str` of a JSON-decoded value, as used by the f-string
`f"...\x7bcid\x7d..."` on line 39. -/
def pyStr : Json → String
  | .str s => s
  | j => pyRepr j

/-- Python `v[k]` for a string key `k`: dict lookup (`KeyError` when
missing), `TypeError` on any non-dict. -/
def pyIndexStr (j : Json) (k : String) : Except PyExc Json :=
  match j with
  | .obj kvs =>
    match List.lookup k kvs with
    | some v => .ok v
    | none => .error .keyError
  | _ => .error .typeError

/-- Python `v[0]`: first element of a list (`IndexError` when empty), first
character of a string, `KeyError` on a dict (whose keys here are strings, so
`0` is never a key), `TypeError` otherwise. -/
def pyIndexZero (j : Json) : Except PyExc Json :=
  match j with
  | .arr [] => .error .indexError
  | .arr (x :: _) => .ok x
  | .str s =>
    match s.data with
    | [] => .error .indexError
    | c :: _ => .ok (.str (String.singleton c))
  | .obj _ => .error .keyError
  | _ => .error .typeError

/-- Bool-valued substring test used by Python `needle in haystack` on
strings: does `ns` occur as a contiguous run at the front of `hs`? -/
def charsStartWith : List Char → List Char → Bool
  | [], _ => true
  | _ :: _, [] => false
  | n :: ns, h :: hs => n == h && charsStartWith ns hs

/-- Does `ns` occur as a contiguous run anywhere in `hs`? -/
def charsOccur : List Char → List Char → Bool
  | ns, [] => ns.isEmpty
  | ns, h :: hs => charsStartWith ns (h :: hs) || charsOccur ns hs

/-- Python `k in v` for a string `k`: key test on a dict, element test on a
list (string-to-string comparison only can succeed), substring test on a
string, `TypeError` on non-iterables. -/
def pyInStr (k : String) (j : Json) : Except PyExc Bool :=
  match j with
  | .obj kvs => .ok (kvs.any fun p => k == p.1)
  | .arr xs => .ok (xs.any fun x => match x with | .str s => s == k | _ => false)
  | .str s => .ok (charsOccur k.data s.data)
  | _ => .error .typeError

/-- UTF-8 encoding of one character, as a list of byte values. -/
def utf8Bytes (c : Char) : List Nat :=
  if c.toNat < 128 then [c.toNat]
  else if c.toNat < 2048 then
    [192 + c.toNat / 64, 128 + c.toNat % 64]
  else if c.toNat < 65536 then
    [224 + c.toNat / 4096, 128 + c.toNat / 64 % 64, 128 + c.toNat % 64]
  else
    [240 + c.toNat / 262144, 128 + c.toNat / 4096 % 64, 128 + c.toNat / 64 % 64,
      128 + c.toNat % 64]

/-- UTF-8 encoding of a character sequence. -/
def utf8Encode : List Char → List Nat
  | [] => []
  | c :: cs => utf8Bytes c ++ utf8Encode cs

/-- The bytes `urllib.parse.quote` leaves unescaped with its default
arguments: the always-safe set (ASCII letters, digits, `_`, `.`, `-`, `~`)
plus the default `safe` parameter, which is the single character `/`. -/
def quoteSafeByte (b : Nat) : Bool :=
  (65 ≤ b && b ≤ 90) || (97 ≤ b && b ≤ 122) || (48 ≤ b && b ≤ 57) ||
    b == 95 || b == 46 || b == 45 || b == 126 || b == 47

/-- Uppercase hexadecimal digit, for percent-escapes. -/
def hexDigit (n : Nat) : Char :=
  if n < 10 then Char.ofNat (48 + n)
  else if n < 16 then Char.ofNat (55 + n)
  else '0'

/-- Percent-encode a byte sequence (as its character sequence): safe bytes
pass through as characters, every other byte becomes the three-character
escape `%XX` with uppercase hex digits. -/
def quoteChars : List Nat → List Char
  | [] => []
  | b :: bs =>
    (if quoteSafeByte b then [Char.ofNat b]
     else ['%', hexDigit (b / 16), hexDigit (b % 16)]) ++ quoteChars bs

/-- `urllib.parse.quote(compound_name)` with default arguments (line 27):
UTF-8 encode, then percent-encode every byte outside the safe set. -/
def urlQuote (s : String) : String :=
  ⟨quoteChars (utf8Encode s.data)⟩

/-- `base_url` of line 25. -/
def base_url : String := "https://pubchem.ncbi.nlm.nih.gov/rest/pug/compound/name"

/-- `cid_url` of line 30 for a given compound name. -/
def cidUrl (compound_name : String) : String :=
  base_url ++ "/" ++ urlQuote compound_name ++ "/cids/JSON"

/-- `smiles_url` of line 39 for a given CID value (interpolated with
Python `str`). -/
def smilesUrl (cid : Json) : String :=
  "https://pubchem.ncbi.nlm.nih.gov/rest/pug/compound/cid/" ++ pyStr cid ++
    "/property/CanonicalSMILES/JSON"

/-- What `requests.get(url, timeout=10)` does for one URL: either raise a
`RequestException` (connection error or timeout), or deliver a response with
a status code and a body that is either parseable JSON or not. -/
inductive HttpOutcome where
  | exn : HttpOutcome
  | resp (status : Nat) (body : Option Json) : HttpOutcome

/-- The remote service as an oracle from request URL to outcome. -/
def HttpEnv : Type := String → HttpOutcome

/-- `requests.get` + `response.raise_for_status()` + `response.json()`
(lines 31-33 and 40-42).  `raise_for_status` raises exactly for status codes
400-599; an unparseable body makes `response.json()` raise a
`JSONDecodeError`, which is a `RequestException`. -/
def httpGetJson (env : HttpEnv) (url : String) : Except PyExc Json :=
  match env url with
  | .exn => .error .requestException
  | .resp status body =>
    if 400 ≤ status ∧ status < 600 then .error .requestException
    else
      match body with
      | none => .error .requestException
      | some j => .ok j

/-- `data['IdentifierList']['CID'][0]` (line 36). -/
def extractCid (data : Json) : Except PyExc Json :=
  match pyIndexStr data "IdentifierList" with
  | .error e => .error e
  | .ok l =>
    match pyIndexStr l "CID" with
    | .error e => .error e
    | .ok cids => pyIndexZero cids

/-- `smiles_data['PropertyTable']['Properties'][0]` (line 45). -/
def extractProps (smiles_data : Json) : Except PyExc Json :=
  match pyIndexStr smiles_data "PropertyTable" with
  | .error e => .error e
  | .ok t =>
    match pyIndexStr t "Properties" with
    | .error e => .error e
    | .ok props => pyIndexZero props

/-- The `if/elif/else` on the property record (lines 46-53): prefer
`CanonicalSMILES`, fall back to `ConnectivitySMILES`, else return `None`. -/
def chooseSmiles (properties : Json) : Except PyExc Json :=
  match pyInStr "CanonicalSMILES" properties with
  | .error e => .error e
  | .ok true => pyIndexStr properties "CanonicalSMILES"
  | .ok false =>
    match pyInStr "ConnectivitySMILES" properties with
    | .error e => .error e
    | .ok true => pyIndexStr properties "ConnectivitySMILES"
    | .ok false => .ok .null

/-- The `except (requests.exceptions.RequestException, KeyError, IndexError)`
clause (lines 55-57): those three exceptions are turned into the `None`
result; anything else keeps propagating. -/
def catchNorm (r : Except PyExc Json) : Except PyExc Json :=
  match r with
  | .error .requestException => .ok .null
  | .error .keyError => .ok .null
  | .error .indexError => .ok .null
  | r => r

/-- The identifier-lookup step (lines 30-36): first HTTP GET plus CID
extraction, still inside the `try`. -/
def stage1 (env : HttpEnv) (compound_name : String) : Except PyExc Json :=
  match httpGetJson env (cidUrl compound_name) with
  | .error e => .error e
  | .ok data => extractCid data

/-- `get_smiles_from_pubchem` (lines 15-57).  Returns the Python result
(`Json.null` for `None`) or an escaping exception, together with the list of
URLs actually requested. -/
def get_smiles_from_pubchem (env : HttpEnv) (compound_name : String) :
    Except PyExc Json × List String :=
  match stage1 env compound_name with
  | .error e => (catchNorm (.error e), [cidUrl compound_name])
  | .ok cid =>
    match httpGetJson env (smilesUrl cid) with
    | .error e =>
      (catchNorm (.error e), [cidUrl compound_name, smilesUrl cid])
    | .ok smiles_data =>
      match extractProps smiles_data with
      | .error e =>
        (catchNorm (.error e), [cidUrl compound_name, smilesUrl cid])
      | .ok properties =>
        (catchNorm (chooseSmiles properties), [cidUrl compound_name, smilesUrl cid])

/-- One row dictionary appended by `batch_get_smiles` (lines 77-81). -/
def resultRecord (compound_name : String) (smiles : Json) : List (String × Json) :=
  [("Compound_Name", .str compound_name),
   ("SMILES", smiles),
   ("Status", .str (if pyTruthy smiles then "Found" else "Not Found"))]

/-- Observable events of the batch loop: one `call` per invocation of
`get_smiles_from_pubchem`, one `sleep` per executed `time.sleep(delay)`. -/
inductive BatchEvent where
  | call (compound_name : String) : BatchEvent
  | sleep (seconds : ℚ) : BatchEvent

/-- First-occurrence-order union of the keys of a list of row dictionaries:
how `pandas.DataFrame(list_of_dicts)` infers its columns. -/
def dedupKeysAux (seen : List String) : List String → List String
  | [] => []
  | k :: ks =>
    if seen.contains k then dedupKeysAux seen ks
    else k :: dedupKeysAux (k :: seen) ks

/-- Column inference of `pandas.DataFrame` over a list of row dictionaries. -/
def dedupKeys (l : List String) : List String :=
  dedupKeysAux [] l

/-- A `pandas.DataFrame` as observed by this program: its column labels and
its rows.  `pd.DataFrame()` and `pd.DataFrame([])` are both `⟨[], []⟩`: zero
rows and zero columns. -/
structure DataFrame where
  columns : List String
  rows : List (List (String × Json))

/-- `pd.DataFrame(records)` for a list of row dictionaries (line 85). -/
def dataFrameOfRecords (rs : List (List (String × Json))) : DataFrame :=
  ⟨dedupKeys ((rs.map fun r => r.map Prod.fst).flatten), rs⟩

/-- The loop of `batch_get_smiles` (lines 74-83): resolve each name in
order, append its row, and `time.sleep(delay)` whenever `i < len(names)`,
i.e. exactly when further names remain.  An exception escaping
`get_smiles_from_pubchem` aborts the loop and propagates. -/
def batchAux (env : HttpEnv) (delay : ℚ) :
    List String → Except PyExc (List (List (String × Json))) × List BatchEvent
  | [] => (.ok [], [])
  | compound_name :: rest =>
    match (get_smiles_from_pubchem env compound_name).fst with
    | .error e => (.error e, [.call compound_name])
    | .ok smiles =>
      match rest with
      | [] => (.ok [resultRecord compound_name smiles], [.call compound_name])
      | next :: rest2 =>
        match batchAux env delay (next :: rest2) with
        | (.error e, tr) =>
          (.error e, .call compound_name :: .sleep delay :: tr)
        | (.ok rs, tr) =>
          (.ok (resultRecord compound_name smiles :: rs),
            .call compound_name :: .sleep delay :: tr)

/-- `batch_get_smiles` (lines 60-85): the loop, then
`pd.DataFrame(results)`.  The Python default for `delay` is `0.2`. -/
def batch_get_smiles (env : HttpEnv) (compound_names : List String) (delay : ℚ) :
    Except PyExc DataFrame × List BatchEvent :=
  match batchAux env delay compound_names with
  | (.error e, tr) => (.error e, tr)
  | (.ok rs, tr) => (.ok (dataFrameOfRecords rs), tr)

/-- What `open(filename, 'r')` does: deliver the file's content, raise
`FileNotFoundError`, or raise `PermissionError`. -/
inductive OpenOutcome where
  | content (s : String) : OpenOutcome
  | notFound : OpenOutcome
  | permissionDenied : OpenOutcome

/-- The whitespace characters stripped by Python `str.strip()` (the ASCII
ones; exotic unicode whitespace is not modelled). -/
def isPySpace (c : Char) : Bool :=
  c == ' ' || c == '\t' || c == '\n' || c == '\r' || c == '\x0b' || c == '\x0c'

/-- Python `str.strip()`: drop leading and trailing whitespace. -/
def pyStrip (s : String) : String :=
  ⟨((s.data.dropWhile isPySpace).reverse.dropWhile isPySpace).reverse⟩

/-- Split a character sequence at newlines (`cur` holds the reversed
current line). -/
def splitNlAux (cur : List Char) : List Char → List (List Char)
  | [] => [cur.reverse]
  | c :: cs =>
    if c = '\n' then cur.reverse :: splitNlAux [] cs
    else splitNlAux (c :: cur) cs

/-- The lines of a file's content, newline separators removed (iterating a
Python text file yields each line with its trailing newline, which
`strip()` removes again, so the two models agree after stripping). -/
def splitLines (s : String) : List String :=
  (splitNlAux [] s.data).map fun cs => ⟨cs⟩

/-- `[line.strip() for line in f if line.strip()]` (line 100): split the
content into lines, strip surrounding whitespace, drop blank lines. -/
def parseLines (s : String) : List String :=
  ((splitLines s).map pyStrip).filter fun line => line != ""

/-- `process_compounds_from_file` (lines 88-104): read and clean the lines,
delegate to `batch_get_smiles` with the default delay; only
`FileNotFoundError` is caught (yielding `pd.DataFrame()`), any other
exception propagates. -/
def process_compounds_from_file (env : HttpEnv) (fs : String → OpenOutcome)
    (filename : String) : Except PyExc DataFrame :=
  match fs filename with
  | .content s => (batch_get_smiles env (parseLines s) 0.2).fst
  | .notFound => .ok ⟨[], []⟩
  | .permissionDenied => .error .permissionError

/-- Spec-side comparator for the pacing claim, following the words of
spec 4.2: a `call` for every name in order and a `sleep` between
consecutive calls — after each of the first `n-1` items, never after the
last. -/
def pacedTraceSpec (delay : ℚ) : List String → List BatchEvent
  | [] => []
  | [compound_name] => [.call compound_name]
  | compound_name :: next :: rest =>
    .call compound_name :: .sleep delay :: pacedTraceSpec delay (next :: rest)

/-- Is a value a non-empty Python string? -/
def isNonemptyStr : Json → Bool
  | .str s => s != ""
  | _ => false

/-- An oracle on which every HTTP request raises (network down). -/
def envAllExn : HttpEnv := fun _ => .exn

/-- The identifier-lookup response body used by the concrete scenarios:
CID list `[7583]` (the spec's mesitylene example). -/
def cidBody : Json :=
  .obj [("IdentifierList", .obj [("CID", .arr [.num 7583])])]

/-- A property response whose single record carries `CanonicalSMILES: v`. -/
def propBodyCanon (v : Json) : Json :=
  .obj [("PropertyTable", .obj [("Properties", .arr [.obj [("CanonicalSMILES", v)]])])]

/-- A healthy remote service for the name `mesitylene`: the identifier
lookup yields CID 7583 and the property lookup yields a record with
`CanonicalSMILES: v`. -/
def envHappy (v : Json) : HttpEnv := fun u =>
  if u = cidUrl "mesitylene" then .resp 200 (some cidBody)
  else if u = smilesUrl (.num 7583) then .resp 200 (some (propBodyCanon v))
  else .exn

/-- A service answering the identifier lookup with the JSON number `5`:
valid JSON whose shape the code does not expect. -/
def envTypeCex : HttpEnv := fun u =>
  if u = cidUrl "mesitylene" then .resp 200 (some (.num 5)) else .exn

/-- A service answering the identifier lookup with status 300 (non-2xx, but
below the 400-599 range that `raise_for_status` rejects) and a good body. -/
def envNon2xx : HttpEnv := fun u =>
  if u = cidUrl "mesitylene" then .resp 300 (some cidBody) else .exn

/-- Python key-membership agrees with association-list lookup success. -/
theorem any_eq_lookup_isSome (k : String) (kvs : List (String × Json)) :
    (kvs.any fun p => k == p.1) = (List.lookup k kvs).isSome := by
  induction kvs with
  | nil => rfl
  | cons p t ih =>
    obtain ⟨k', v⟩ := p
    by_cases h : k == k'
    · simp [List.lookup, h]
    · simp only [List.any_cons, List.lookup, Bool.not_eq_true] at *
      rw [h, ih]
      simp

/-- `httpGetJson` only raises `RequestException`. -/
theorem httpGetJson_error (env : HttpEnv) (url : String) (e : PyExc)
    (h : httpGetJson env url = .error e) : e = .requestException := by
  unfold httpGetJson at h
  split at h
  · injection h with h; exact h.symm
  · split at h
    · injection h with h; exact h.symm
    · split at h
      · injection h with h; exact h.symm
      · exact absurd h (by simp)

/-- String subscripting only raises `KeyError` or `TypeError`. -/
theorem pyIndexStr_error (j : Json) (k : String) (e : PyExc)
    (h : pyIndexStr j k = .error e) : e = .keyError ∨ e = .typeError := by
  unfold pyIndexStr at h
  split at h
  · split at h
    · exact absurd h (by simp)
    · injection h with h; exact Or.inl h.symm
  · injection h with h; exact Or.inr h.symm

/-- Subscripting with `0` only raises `KeyError`, `IndexError` or
`TypeError`. -/
theorem pyIndexZero_error (j : Json) (e : PyExc)
    (h : pyIndexZero j = .error e) :
    e = .keyError ∨ e = .indexError ∨ e = .typeError := by
  unfold pyIndexZero at h
  split at h
  · injection h with h; exact Or.inr (Or.inl h.symm)
  · exact absurd h (by simp)
  · split at h
    · injection h with h; exact Or.inr (Or.inl h.symm)
    · exact absurd h (by simp)
  · injection h with h; exact Or.inl h.symm
  · injection h with h; exact Or.inr (Or.inr h.symm)

/-- The `in` operator only raises `TypeError`. -/
theorem pyInStr_error (k : String) (j : Json) (e : PyExc)
    (h : pyInStr k j = .error e) : e = .typeError := by
  unfold pyInStr at h
  split at h
  · exact absurd h (by simp)
  · exact absurd h (by simp)
  · exact absurd h (by simp)
  · injection h with h; exact h.symm

/-- `data['IdentifierList']['CID'][0]` only raises `KeyError`, `IndexError`
or `TypeError`. -/
theorem extractCid_error (data : Json) (e : PyExc)
    (h : extractCid data = .error e) :
    e = .keyError ∨ e = .indexError ∨ e = .typeError := by
  unfold extractCid at h
  split at h
  · injection h with h; subst h
    rcases pyIndexStr_error _ _ _ (by assumption) with h' | h'
    · exact Or.inl h'
    · exact Or.inr (Or.inr h')
  · split at h
    · injection h with h; subst h
      rcases pyIndexStr_error _ _ _ (by assumption) with h' | h'
      · exact Or.inl h'
      · exact Or.inr (Or.inr h')
    · exact pyIndexZero_error _ _ h

/-- `smiles_data['PropertyTable']['Properties'][0]` only raises `KeyError`,
`IndexError` or `TypeError`. -/
theorem extractProps_error (smiles_data : Json) (e : PyExc)
    (h : extractProps smiles_data = .error e) :
    e = .keyError ∨ e = .indexError ∨ e = .typeError := by
  unfold extractProps at h
  split at h
  · injection h with h; subst h
    rcases pyIndexStr_error _ _ _ (by assumption) with h' | h'
    · exact Or.inl h'
    · exact Or.inr (Or.inr h')
  · split at h
    · injection h with h; subst h
      rcases pyIndexStr_error _ _ _ (by assumption) with h' | h'
      · exact Or.inl h'
      · exact Or.inr (Or.inr h')
    · exact pyIndexZero_error _ _ h

/-- The SMILES preference chain only raises `KeyError` or `TypeError`. -/
theorem chooseSmiles_error (properties : Json) (e : PyExc)
    (h : chooseSmiles properties = .error e) :
    e = .keyError ∨ e = .typeError := by
  unfold chooseSmiles at h
  split at h
  · injection h with h; subst h
    exact Or.inr (pyInStr_error _ _ _ (by assumption))
  · exact pyIndexStr_error _ _ _ h
  · split at h
    · injection h with h; subst h
      exact Or.inr (pyInStr_error _ _ _ (by assumption))
    · exact pyIndexStr_error _ _ _ h
    · exact absurd h (by simp)

/-- The identifier-lookup step only raises `RequestException`, `KeyError`,
`IndexError` or `TypeError`. -/
theorem stage1_error (env : HttpEnv) (compound_name : String) (e : PyExc)
    (h : stage1 env compound_name = .error e) :
    e = .requestException ∨ e = .keyError ∨ e = .indexError ∨ e = .typeError := by
  unfold stage1 at h
  split at h
  · injection h with h; subst h
    exact Or.inl (httpGetJson_error _ _ _ (by assumption))
  · rcases extractCid_error _ _ h with h' | h' | h'
    · exact Or.inr (Or.inl h')
    · exact Or.inr (Or.inr (Or.inl h'))
    · exact Or.inr (Or.inr (Or.inr h'))

/-- Whatever survives the `except` clause, out of the exceptions this
program's `try` body can raise, is a `TypeError`. -/
theorem catchNorm_error_typeError (e' e : PyExc)
    (h : catchNorm (.error e') = .error e)
    (hset : e' = .requestException ∨ e' = .keyError ∨ e' = .indexError ∨ e' = .typeError) :
    e = .typeError := by
  cases e' with
  | requestException => simp [catchNorm] at h
  | keyError => simp [catchNorm] at h
  | indexError => simp [catchNorm] at h
  | typeError => injection h with h; exact h.symm
  | permissionError => rcases hset with h' | h' | h' | h' <;> exact absurd h' (by simp)

/-- Any exception escaping `get_smiles_from_pubchem` is a `TypeError`. -/
theorem get_error (env : HttpEnv) (compound_name : String) (e : PyExc)
    (h : (get_smiles_from_pubchem env compound_name).fst = .error e) :
    e = .typeError := by
  unfold get_smiles_from_pubchem at h
  split at h
  · rename_i e1 h1
    exact catchNorm_error_typeError e1 e h (stage1_error _ _ _ h1)
  · rename_i cid h1
    split at h
    · rename_i e2 h2
      exact catchNorm_error_typeError e2 e h
        (Or.inl (httpGetJson_error _ _ _ h2))
    · rename_i smiles_data h2
      split at h
      · rename_i e3 h3
        rcases extractProps_error _ _ h3 with h' | h' | h'
        · exact catchNorm_error_typeError e3 e h (Or.inr (Or.inl h'))
        · exact catchNorm_error_typeError e3 e h (Or.inr (Or.inr (Or.inl h')))
        · exact catchNorm_error_typeError e3 e h (Or.inr (Or.inr (Or.inr h')))
      · rename_i properties h3
        cases hc : chooseSmiles properties with
        | ok j => rw [hc] at h; exact absurd h (by simp [catchNorm])
        | error e4 =>
          rw [hc] at h
          rcases chooseSmiles_error _ _ hc with h' | h'
          · exact catchNorm_error_typeError e4 e h (Or.inr (Or.inl h'))
          · exact catchNorm_error_typeError e4 e h (Or.inr (Or.inr (Or.inr h')))

/-- The result of `get_smiles_from_pubchem` when both requests succeed and
the first property record is the dict `kvs`: the `CanonicalSMILES` value if
that key is present, else the `ConnectivitySMILES` value if present, else
`None`. -/
theorem get_ok_eq (env : HttpEnv) (compound_name : String) (cid d2 : Json)
    (kvs : List (String × Json))
    (h1 : stage1 env compound_name = .ok cid)
    (h2 : httpGetJson env (smilesUrl cid) = .ok d2)
    (h3 : extractProps d2 = .ok (.obj kvs)) :
    (get_smiles_from_pubchem env compound_name).fst
      = .ok ((List.lookup "CanonicalSMILES" kvs).getD
          ((List.lookup "ConnectivitySMILES" kvs).getD .null)) := by
  unfold get_smiles_from_pubchem
  simp only [h1]
  simp only [h2]
  simp only [h3]
  show catchNorm (chooseSmiles (.obj kvs)) = _
  unfold chooseSmiles pyInStr
  dsimp only
  rw [any_eq_lookup_isSome, any_eq_lookup_isSome]
  cases hc : List.lookup "CanonicalSMILES" kvs with
  | some v => simp [pyIndexStr, hc, catchNorm]
  | none =>
    simp only [hc, Option.isSome_none]
    cases hn : List.lookup "ConnectivitySMILES" kvs with
    | some v => simp [pyIndexStr, hn, catchNorm]
    | none => simp [hn, catchNorm]

/-- Whenever the identifier-lookup step raises, the trace of issued
requests stops at the first URL: the property request is never sent. -/
theorem get_trace_of_stage1_error (env : HttpEnv) (compound_name : String) (e : PyExc)
    (h : stage1 env compound_name = .error e) :
    (get_smiles_from_pubchem env compound_name).snd = [cidUrl compound_name] := by
  unfold get_smiles_from_pubchem
  rw [h]

/-- One-step unfolding of the batch loop on the empty list. -/
theorem batchAux_nil (env : HttpEnv) (d : ℚ) : batchAux env d [] = (.ok [], []) := rfl

/-- One-step unfolding of the batch loop on a non-empty list. -/
theorem batchAux_cons (env : HttpEnv) (d : ℚ) (name : String) (rest : List String) :
    batchAux env d (name :: rest) =
      match (get_smiles_from_pubchem env name).fst with
      | .error e => (.error e, [.call name])
      | .ok smiles =>
        match rest with
        | [] => (.ok [resultRecord name smiles], [.call name])
        | next :: rest2 =>
          match batchAux env d (next :: rest2) with
          | (.error e, tr) => (.error e, .call name :: .sleep d :: tr)
          | (.ok rs, tr) =>
            (.ok (resultRecord name smiles :: rs), .call name :: .sleep d :: tr) := by
  rw [batchAux]

/-- On a normally completed batch, the `Compound_Name` column of the rows
is exactly the input list, in order. -/
theorem batchAux_ok_names (env : HttpEnv) (d : ℚ) (names : List String) :
    ∀ (rs : List (List (String × Json))) (tr : List BatchEvent),
      batchAux env d names = (.ok rs, tr) →
      rs.map (fun r => List.lookup "Compound_Name" r)
        = names.map (fun n => some (Json.str n)) := by
  induction names with
  | nil =>
    intro rs tr h
    rw [batchAux_nil] at h
    simp only [Prod.mk.injEq] at h
    obtain ⟨h1, _⟩ := h
    injection h1 with h1
    simp [← h1]
  | cons name rest ih =>
    intro rs tr h
    rw [batchAux_cons] at h
    cases hget : (get_smiles_from_pubchem env name).fst with
    | error e => rw [hget] at h; simp at h
    | ok smiles =>
      rw [hget] at h
      cases rest with
      | nil =>
        simp only [Prod.mk.injEq] at h
        obtain ⟨h1, _⟩ := h
        injection h1 with h1
        simp [← h1, resultRecord]
      | cons next rest2 =>
        dsimp only at h
        cases hrec : batchAux env d (next :: rest2) with
        | mk r' tr' =>
          rw [hrec] at h
          cases r' with
          | error e => simp at h
          | ok rs' =>
            simp only [Prod.mk.injEq] at h
            obtain ⟨h1, _⟩ := h
            injection h1 with h1
            rw [← h1, List.map_cons, ih rs' tr' hrec]
            rfl

/-- On a normally completed batch, every row is a `resultRecord`. -/
theorem batchAux_ok_shape (env : HttpEnv) (d : ℚ) (names : List String) :
    ∀ (rs : List (List (String × Json))) (tr : List BatchEvent),
      batchAux env d names = (.ok rs, tr) →
      ∀ r ∈ rs, ∃ n smiles, r = resultRecord n smiles := by
  induction names with
  | nil =>
    intro rs tr h
    rw [batchAux_nil] at h
    simp only [Prod.mk.injEq] at h
    obtain ⟨h1, _⟩ := h
    injection h1 with h1
    rw [← h1]
    intro r hr
    exact absurd hr (by simp)
  | cons name rest ih =>
    intro rs tr h
    rw [batchAux_cons] at h
    cases hget : (get_smiles_from_pubchem env name).fst with
    | error e => rw [hget] at h; simp at h
    | ok smiles =>
      rw [hget] at h
      cases rest with
      | nil =>
        simp only [Prod.mk.injEq] at h
        obtain ⟨h1, _⟩ := h
        injection h1 with h1
        rw [← h1]
        intro r hr
        rw [List.mem_singleton] at hr
        exact ⟨name, smiles, hr⟩
      | cons next rest2 =>
        dsimp only at h
        cases hrec : batchAux env d (next :: rest2) with
        | mk r' tr' =>
          rw [hrec] at h
          cases r' with
          | error e => simp at h
          | ok rs' =>
            simp only [Prod.mk.injEq] at h
            obtain ⟨h1, _⟩ := h
            injection h1 with h1
            rw [← h1]
            intro r hr
            rw [List.mem_cons] at hr
            rcases hr with hr | hr
            · exact ⟨name, smiles, hr⟩
            · exact ih rs' tr' hrec r hr

/-- On a normally completed batch, the event trace is exactly the paced
comb described by the spec: calls in input order with one sleep between
consecutive calls. -/
theorem batchAux_ok_trace (env : HttpEnv) (d : ℚ) (names : List String) :
    ∀ (rs : List (List (String × Json))) (tr : List BatchEvent),
      batchAux env d names = (.ok rs, tr) →
      tr = pacedTraceSpec d names := by
  induction names with
  | nil =>
    intro rs tr h
    rw [batchAux_nil] at h
    simp only [Prod.mk.injEq] at h
    obtain ⟨_, h2⟩ := h
    simp [← h2, pacedTraceSpec]
  | cons name rest ih =>
    intro rs tr h
    rw [batchAux_cons] at h
    cases hget : (get_smiles_from_pubchem env name).fst with
    | error e => rw [hget] at h; simp at h
    | ok smiles =>
      rw [hget] at h
      cases rest with
      | nil =>
        simp only [Prod.mk.injEq] at h
        obtain ⟨_, h2⟩ := h
        simp [← h2, pacedTraceSpec]
      | cons next rest2 =>
        dsimp only at h
        cases hrec : batchAux env d (next :: rest2) with
        | mk r' tr' =>
          rw [hrec] at h
          cases r' with
          | error e => simp at h
          | ok rs' =>
            simp only [Prod.mk.injEq] at h
            obtain ⟨_, h2⟩ := h
            rw [← h2, ih rs' tr' hrec]
            rfl

/-- Any exception escaping the batch loop is a `TypeError`. -/
theorem batchAux_error (env : HttpEnv) (d : ℚ) (names : List String) :
    ∀ (e : PyExc) (tr : List BatchEvent),
      batchAux env d names = (.error e, tr) → e = .typeError := by
  induction names with
  | nil =>
    intro e tr h
    rw [batchAux_nil] at h
    simp at h
  | cons name rest ih =>
    intro e tr h
    rw [batchAux_cons] at h
    cases hget : (get_smiles_from_pubchem env name).fst with
    | error e' =>
      rw [hget] at h
      simp only [Prod.mk.injEq] at h
      obtain ⟨h1, _⟩ := h
      injection h1 with h1
      rw [← h1]
      exact get_error env name e' hget
    | ok smiles =>
      rw [hget] at h
      cases rest with
      | nil => simp at h
      | cons next rest2 =>
        dsimp only at h
        cases hrec : batchAux env d (next :: rest2) with
        | mk r' tr' =>
          rw [hrec] at h
          cases r' with
          | error e' =>
            simp only [Prod.mk.injEq] at h
            obtain ⟨h1, _⟩ := h
            injection h1 with h1
            rw [← h1]
            exact ih e' tr' hrec
          | ok rs' => simp at h

/-- `Char.ofNat` of a byte other than 47 is never the slash character. -/
theorem char_ofNat_ne_slash (b : Nat) (hb : b ≠ 47) : Char.ofNat b ≠ '/' := by
  intro h
  apply hb
  have h2 : (Char.ofNat b).toNat = 47 := by rw [h]; rfl
  rw [Char.ofNat] at h2
  split at h2
  · simpa [Char.ofNatAux, Char.toNat] using h2
  · exact absurd h2 (by decide)

/-- Hexadecimal digits are never the slash character. -/
theorem hexDigit_ne_slash (n : Nat) : hexDigit n ≠ '/' := by
  unfold hexDigit
  split
  · exact char_ofNat_ne_slash _ (by omega)
  · split
    · exact char_ofNat_ne_slash _ (by omega)
    · decide

/-- Percent-encoding a byte sequence free of byte 47 yields a character
sequence free of `/`. -/
theorem quoteChars_no_slash (bs : List Nat) (hbs : ∀ b ∈ bs, b ≠ 47) :
    ∀ c ∈ quoteChars bs, c ≠ '/' := by
  induction bs with
  | nil => intro c hc; exact absurd hc (by simp [quoteChars])
  | cons b bs ih =>
    intro c hc
    unfold quoteChars at hc
    rw [List.mem_append] at hc
    rcases hc with hc | hc
    · split at hc
      · rw [List.mem_singleton] at hc
        rw [hc]
        exact char_ofNat_ne_slash b (hbs b (List.mem_cons_self b bs))
      · simp only [List.mem_cons, List.mem_singleton] at hc
        rcases hc with hc | hc | hc
        · rw [hc]; decide
        · rw [hc]; exact hexDigit_ne_slash _
        · simp only [List.not_mem_nil, or_false] at hc
          rw [hc]; exact hexDigit_ne_slash _
    · exact ih (fun b' hb' => hbs b' (List.mem_cons_of_mem b hb')) c hc

/-- The UTF-8 bytes of a character other than `/` never include byte 47. -/
theorem utf8Bytes_ne_47 (c : Char) (hc : c ≠ '/') : ∀ b ∈ utf8Bytes c, b ≠ 47 := by
  intro b hb
  unfold utf8Bytes at hb
  by_cases h1 : c.toNat < 128
  · rw [if_pos h1] at hb
    rw [List.mem_singleton] at hb
    intro h47
    apply hc
    have hn : c.toNat = 47 := by omega
    calc c = Char.ofNat c.toNat := (Char.ofNat_toNat c).symm
      _ = '/' := by rw [hn]
  · rw [if_neg h1] at hb
    by_cases h2 : c.toNat < 2048
    · rw [if_pos h2] at hb
      simp only [List.mem_cons, List.not_mem_nil, or_false] at hb
      rcases hb with hb | hb <;> omega
    · rw [if_neg h2] at hb
      by_cases h3 : c.toNat < 65536
      · rw [if_pos h3] at hb
        simp only [List.mem_cons, List.not_mem_nil, or_false] at hb
        rcases hb with hb | hb | hb <;> omega
      · rw [if_neg h3] at hb
        simp only [List.mem_cons, List.not_mem_nil, or_false] at hb
        rcases hb with hb | hb | hb | hb <;> omega

/-- The UTF-8 bytes of a `/`-free character sequence never include 47. -/
theorem utf8Encode_ne_47 (cs : List Char) (hcs : ∀ c ∈ cs, c ≠ '/') :
    ∀ b ∈ utf8Encode cs, b ≠ 47 := by
  induction cs with
  | nil => intro b hb; exact absurd hb (by simp [utf8Encode])
  | cons c cs ih =>
    intro b hb
    unfold utf8Encode at hb
    rw [List.mem_append] at hb
    rcases hb with hb | hb
    · exact utf8Bytes_ne_47 c (hcs c (List.mem_cons_self c cs)) b hb
    · exact ih (fun c' hc' => hcs c' (List.mem_cons_of_mem c hc')) b hb

/-- C1: for every non-empty input list, a normally completed
`batch_get_smiles` returns a table with exactly one row per input query, in
input order — the `Compound_Name` cells of the rows are exactly the input
names. -/
theorem batch_rows_match_input (env : HttpEnv) (compound_names : List String)
    (delay : ℚ) (df : DataFrame)
    (_hne : compound_names ≠ [])
    (h : (batch_get_smiles env compound_names delay).fst = .ok df) :
    df.rows.length = compound_names.length ∧
      df.rows.map (fun r => List.lookup "Compound_Name" r)
        = compound_names.map (fun n => some (Json.str n)) := by
  unfold batch_get_smiles at h
  cases hb : batchAux env delay compound_names with
  | mk r tr =>
    rw [hb] at h
    cases r with
    | error e => simp at h
    | ok rs =>
      dsimp at h
      injection h with h
      have hnames := batchAux_ok_names env delay compound_names rs tr hb
      have hlen : rs.length = compound_names.length := by
        have := congrArg List.length hnames
        simpa using this
      rw [← h]
      exact ⟨hlen, hnames⟩

/-- C1 witness: a concrete two-name batch against an unreachable service. -/
theorem batch_rows_match_input_witness :
    (dataFrameOfRecords [resultRecord "mesitylene" .null,
        resultRecord "undecane" .null]).rows.length
        = (["mesitylene", "undecane"] : List String).length ∧
      (dataFrameOfRecords [resultRecord "mesitylene" .null,
          resultRecord "undecane" .null]).rows.map
          (fun r => List.lookup "Compound_Name" r)
        = (["mesitylene", "undecane"] : List String).map (fun n => some (Json.str n)) :=
  batch_rows_match_input envAllExn ["mesitylene", "undecane"] 0.2
    (dataFrameOfRecords [resultRecord "mesitylene" .null, resultRecord "undecane" .null])
    (by simp) rfl

/-- C2 counterexample: a service answering the identifier lookup with valid
JSON of unexpected shape (the number `5`) makes `data['IdentifierList']`
raise a `TypeError`, which `except (RequestException, KeyError, IndexError)`
does not catch — it escapes `get_smiles_from_pubchem` and
`batch_get_smiles` raises in turn. -/
theorem get_uncaught_typeerror_cex :
    (get_smiles_from_pubchem envTypeCex "mesitylene").fst = .error .typeError ∧
      (batch_get_smiles envTypeCex ["mesitylene"] 0.2).fst = .error .typeError :=
  ⟨rfl, rfl⟩

/-- C2 amended: every failure mode in the enumerated list (network error,
timeout, 4xx/5xx status, unparseable JSON, missing keys, empty lists,
out-of-range indexing) raises one of the three caught exception classes and
is normalized to `None`; the only exception that can escape
`get_smiles_from_pubchem` (and hence `batch_get_smiles`) is a `TypeError`
from a JSON node of unexpected type. -/
theorem get_escaping_exception_is_typeerror :
    (∀ (env : HttpEnv) (compound_name : String) (e : PyExc),
        (get_smiles_from_pubchem env compound_name).fst = .error e → e = .typeError) ∧
      (∀ (env : HttpEnv) (compound_names : List String) (delay : ℚ) (e : PyExc),
        (batch_get_smiles env compound_names delay).fst = .error e → e = .typeError) := by
  constructor
  · exact get_error
  · intro env compound_names delay e h
    unfold batch_get_smiles at h
    cases hb : batchAux env delay compound_names with
    | mk r tr =>
      rw [hb] at h
      cases r with
      | error e' =>
        dsimp at h
        injection h with h
        rw [← h]
        exact batchAux_error env delay compound_names e' tr hb
      | ok rs => simp at h

/-- C2 amended witness: the theorem applied at the concrete misbehaving
service. -/
theorem get_escaping_exception_is_typeerror_witness :
    PyExc.typeError = PyExc.typeError ∧ PyExc.typeError = PyExc.typeError :=
  ⟨get_escaping_exception_is_typeerror.1 envTypeCex "mesitylene" .typeError rfl,
   get_escaping_exception_is_typeerror.2 envTypeCex ["mesitylene"] 0.2 .typeError rfl⟩

/-- C3 counterexample: when the property record carries
`CanonicalSMILES: ""`, `get_smiles_from_pubchem` returns the empty string —
a value that is neither a non-empty string nor the absent marker `None`. -/
theorem get_returns_empty_string_cex :
    (get_smiles_from_pubchem (envHappy (.str "")) "mesitylene").fst = .ok (.str "") ∧
      Json.str "" ≠ Json.null :=
  ⟨rfl, fun h => Json.noConfusion h⟩

/-- C3 amended: the SMILES field value is returned verbatim, so the result
is a non-empty string or `None` only under the proviso that the record's
SMILES fields hold non-empty strings; an empty-string field value is
returned as the empty string. -/
theorem get_result_nonempty_of_nonempty_record (env : HttpEnv) (compound_name : String)
    (cid d2 : Json) (kvs : List (String × Json))
    (h1 : stage1 env compound_name = .ok cid)
    (h2 : httpGetJson env (smilesUrl cid) = .ok d2)
    (h3 : extractProps d2 = .ok (.obj kvs))
    (hcanon : ∀ v, List.lookup "CanonicalSMILES" kvs = some v → isNonemptyStr v = true)
    (hconn : ∀ v, List.lookup "ConnectivitySMILES" kvs = some v → isNonemptyStr v = true) :
    (get_smiles_from_pubchem env compound_name).fst = .ok .null ∨
      Except.map isNonemptyStr (get_smiles_from_pubchem env compound_name).fst
        = .ok true := by
  have heq := get_ok_eq env compound_name cid d2 kvs h1 h2 h3
  cases hc : List.lookup "CanonicalSMILES" kvs with
  | some v =>
    rw [hc] at heq
    simp only [Option.getD_some] at heq
    right
    rw [heq]
    show Except.ok (isNonemptyStr v) = Except.ok true
    rw [hcanon v hc]
  | none =>
    rw [hc] at heq
    simp only [Option.getD_none] at heq
    cases hn : List.lookup "ConnectivitySMILES" kvs with
    | some v =>
      rw [hn] at heq
      simp only [Option.getD_some] at heq
      right
      rw [heq]
      show Except.ok (isNonemptyStr v) = Except.ok true
      rw [hconn v hn]
    | none =>
      rw [hn] at heq
      simp only [Option.getD_none] at heq
      exact Or.inl heq

/-- C3 amended witness: a healthy service with a non-empty SMILES. -/
theorem get_result_nonempty_of_nonempty_record_witness :
    (get_smiles_from_pubchem (envHappy (.str "CC")) "mesitylene").fst = .ok .null ∨
      Except.map isNonemptyStr
          (get_smiles_from_pubchem (envHappy (.str "CC")) "mesitylene").fst
        = .ok true :=
  get_result_nonempty_of_nonempty_record (envHappy (.str "CC")) "mesitylene"
    (.num 7583) (propBodyCanon (.str "CC")) [("CanonicalSMILES", .str "CC")]
    rfl rfl rfl
    (by intro v hv; simp [List.lookup] at hv; simp [← hv, isNonemptyStr])
    (by intro v hv; simp [List.lookup] at hv)

/-- C4: when both requests succeed and the first property record is the
dict `kvs`, the result is the `CanonicalSMILES` value verbatim when that
key is present; only in its absence the `ConnectivitySMILES` value; and
`None` when neither key is present. -/
theorem get_prefers_canonical_smiles (env : HttpEnv) (compound_name : String)
    (cid d2 : Json) (kvs : List (String × Json))
    (h1 : stage1 env compound_name = .ok cid)
    (h2 : httpGetJson env (smilesUrl cid) = .ok d2)
    (h3 : extractProps d2 = .ok (.obj kvs)) :
    (get_smiles_from_pubchem env compound_name).fst
      = .ok ((List.lookup "CanonicalSMILES" kvs).getD
          ((List.lookup "ConnectivitySMILES" kvs).getD .null)) :=
  get_ok_eq env compound_name cid d2 kvs h1 h2 h3

/-- C4 witness: the spec's mesitylene scenario. -/
theorem get_prefers_canonical_smiles_witness :
    (get_smiles_from_pubchem (envHappy (.str "CC1=CC(=CC(=C1)C)C")) "mesitylene").fst
      = .ok ((List.lookup "CanonicalSMILES"
            [("CanonicalSMILES", Json.str "CC1=CC(=CC(=C1)C)C")]).getD
          ((List.lookup "ConnectivitySMILES"
            [("CanonicalSMILES", Json.str "CC1=CC(=CC(=C1)C)C")]).getD .null)) :=
  get_prefers_canonical_smiles (envHappy (.str "CC1=CC(=CC(=C1)C)C")) "mesitylene"
    (.num 7583) (propBodyCanon (.str "CC1=CC(=CC(=C1)C)C"))
    [("CanonicalSMILES", .str "CC1=CC(=CC(=C1)C)C")] rfl rfl rfl

/-- C5 counterexample: on a status-300 response (non-2xx, but outside the
400-599 range that `raise_for_status` rejects) with a well-formed body, the
identifier lookup does not fail and the property request IS issued, so
"non-2xx status" does not imply that the second request is suppressed. -/
theorem second_request_on_non2xx_cex :
    envNon2xx (cidUrl "mesitylene") = .resp 300 (some cidBody) ∧
      ¬(200 ≤ 300 ∧ 300 ≤ 299) ∧
      (get_smiles_from_pubchem envNon2xx "mesitylene").snd
        = [cidUrl "mesitylene", smilesUrl (.num 7583)] ∧
      (get_smiles_from_pubchem envNon2xx "mesitylene").snd ≠ [cidUrl "mesitylene"] :=
  ⟨rfl, by omega, rfl, by decide⟩

/-- C5 amended: whenever the identifier-lookup step raises — network error
or timeout, a 4xx/5xx status, an unparseable body, or a missing/empty CID
list — the property request is never issued: the request trace stops at the
identifier URL. -/
theorem no_property_request_when_lookup_fails (env : HttpEnv) (compound_name : String)
    (e : PyExc) (h : stage1 env compound_name = .error e) :
    (get_smiles_from_pubchem env compound_name).snd = [cidUrl compound_name] :=
  get_trace_of_stage1_error env compound_name e h

/-- C5 amended witness: an unreachable service issues only the identifier
request. -/
theorem no_property_request_when_lookup_fails_witness :
    (get_smiles_from_pubchem envAllExn "undecane").snd = [cidUrl "undecane"] :=
  no_property_request_when_lookup_fails envAllExn "undecane" .requestException rfl

/-- C6 counterexample: `process_compounds_from_file` catches only
`FileNotFoundError`, so a file that exists but is unreadable propagates its
`PermissionError` to the caller instead of yielding an empty table. -/
theorem process_propagates_permission_error_cex :
    process_compounds_from_file envAllExn (fun _ => .permissionDenied) "compound_list.txt"
      = .error .permissionError :=
  rfl

/-- C6 amended: when the file does not exist, `process_compounds_from_file`
emits a diagnostic and returns an empty table without propagating; a
permission error, by contrast, is not caught. -/
theorem process_missing_file_empty_table (env : HttpEnv) (fs : String → OpenOutcome)
    (filename : String) (h : fs filename = .notFound) :
    process_compounds_from_file env fs filename = .ok ⟨[], []⟩ := by
  unfold process_compounds_from_file
  rw [h]

/-- C6 amended witness: a missing file yields the empty table. -/
theorem process_missing_file_empty_table_witness :
    process_compounds_from_file envAllExn (fun _ => .notFound) "compound_list.txt"
      = .ok ⟨[], []⟩ :=
  process_missing_file_empty_table envAllExn (fun _ => .notFound) "compound_list.txt" rfl

/-- C7: on a normally completed batch the event trace is exactly one
resolution call per name in input order with one `sleep delay` after each
of the first `n-1` items and none after the last — the paced comb
`pacedTraceSpec`. -/
theorem batch_sleeps_between_consecutive_items (env : HttpEnv)
    (compound_names : List String) (delay : ℚ) (df : DataFrame)
    (h : (batch_get_smiles env compound_names delay).fst = .ok df) :
    (batch_get_smiles env compound_names delay).snd
      = pacedTraceSpec delay compound_names := by
  unfold batch_get_smiles at h ⊢
  cases hb : batchAux env delay compound_names with
  | mk r tr =>
    rw [hb] at h
    cases r with
    | error e => simp at h
    | ok rs =>
      dsimp
      exact batchAux_ok_trace env delay compound_names rs tr hb

/-- C7 witness: a concrete two-name batch sleeps exactly once, between the
two calls. -/
theorem batch_sleeps_between_consecutive_items_witness :
    (batch_get_smiles envAllExn ["mesitylene", "undecane"] 0.2).snd
      = pacedTraceSpec 0.2 ["mesitylene", "undecane"] :=
  batch_sleeps_between_consecutive_items envAllExn ["mesitylene", "undecane"] 0.2
    (dataFrameOfRecords [resultRecord "mesitylene" .null, resultRecord "undecane" .null])
    rfl

/-- C8 counterexample: `urllib.parse.quote`'s default safe set includes
`/`, so the path-delimiting slash of the name `a/b` survives unescaped into
the request URL, which then has an extra path segment. -/
theorem quote_keeps_slash_cex :
    urlQuote "a/b" = "a/b" ∧ '/' ∈ "a/b".data ∧
      (get_smiles_from_pubchem envAllExn "a/b").snd
        = [base_url ++ "/a/b/cids/JSON"] :=
  ⟨rfl, by decide, rfl⟩

/-- C8 amended: quoting leaves `/` unescaped (the default safe set), so
only names free of `/` are guaranteed to embed as a single path segment:
for those, the encoded name contains no `/` at all. -/
theorem quote_no_slash_for_slash_free_name (compound_name : String)
    (h : (compound_name.data.all fun c => c != '/') = true) :
    ((urlQuote compound_name).data.all fun c => c != '/') = true := by
  rw [List.all_eq_true] at h ⊢
  intro c hc
  simp only [bne_iff_ne, ne_eq]
  refine quoteChars_no_slash (utf8Encode compound_name.data) ?_ c hc
  refine utf8Encode_ne_47 compound_name.data ?_
  intro c' hc'
  have := h c' hc'
  simpa using this

/-- C8 amended witness: a slash-free name with a space still yields a
slash-free encoded segment. -/
theorem quote_no_slash_for_slash_free_name_witness :
    ((urlQuote "methyl octanoate").data.all fun c => c != '/') = true :=
  quote_no_slash_for_slash_free_name "methyl octanoate" (by decide)

/-- C9 counterexample: a service delivering `CanonicalSMILES: 5` (a JSON
number) produces a row whose `Status` is `Found` although its `SMILES`
value is not a non-empty string — Python truthiness, not stringhood,
decides the status. -/
theorem status_found_with_nonstring_smiles_cex :
    (batch_get_smiles (envHappy (.num 5)) ["mesitylene"] 0.2).fst
      = .ok ⟨["Compound_Name", "SMILES", "Status"],
          [[("Compound_Name", .str "mesitylene"), ("SMILES", .num 5),
            ("Status", .str "Found")]]⟩ ∧
      isNonemptyStr (.num 5) = false :=
  ⟨rfl, rfl⟩

/-- C9 amended: in every produced row, `Status` is `Found` exactly when the
stored `SMILES` value is Python-truthy (for a string-or-`None` value:
exactly when it is a non-empty string); in particular an empty-string
SMILES is stored as the empty string with `Status` `Not Found`. -/
theorem status_found_iff_truthy_smiles (env : HttpEnv) (compound_names : List String)
    (delay : ℚ) (df : DataFrame)
    (h : (batch_get_smiles env compound_names delay).fst = .ok df) :
    ∀ r ∈ df.rows,
      (List.lookup "SMILES" r).isSome = true ∧
      List.lookup "Status" r
        = some (.str (if pyTruthy ((List.lookup "SMILES" r).getD .null) then "Found"
            else "Not Found")) ∧
      (List.lookup "Status" r = some (.str "Found")
        ↔ pyTruthy ((List.lookup "SMILES" r).getD .null) = true) := by
  unfold batch_get_smiles at h
  cases hb : batchAux env delay compound_names with
  | mk r' tr =>
    rw [hb] at h
    cases r' with
    | error e => simp at h
    | ok rs =>
      dsimp at h
      injection h with h
      intro r hr
      rw [← h] at hr
      obtain ⟨n, smiles, rfl⟩ :=
        batchAux_ok_shape env delay compound_names rs tr hb r hr
      have hS : List.lookup "SMILES" (resultRecord n smiles) = some smiles := by
        simp [resultRecord, List.lookup]
      have hStatus : List.lookup "Status" (resultRecord n smiles)
          = some (.str (if pyTruthy smiles then "Found" else "Not Found")) := by
        simp [resultRecord, List.lookup]
      refine ⟨by rw [hS]; rfl, ?_, ?_⟩
      · rw [hStatus, hS, Option.getD_some]
      · rw [hStatus, hS, Option.getD_some]
        by_cases ht : pyTruthy smiles
        · simp [ht]
        · simp [ht]

/-- C9 amended witness: the theorem applied to a one-row batch whose lookup
failed (`SMILES` is `None`, `Status` is `Not Found`). -/
theorem status_found_iff_truthy_smiles_witness :
    (List.lookup "SMILES" (resultRecord "undecane" .null)).isSome = true ∧
      List.lookup "Status" (resultRecord "undecane" .null)
        = some (.str (if pyTruthy ((List.lookup "SMILES"
            (resultRecord "undecane" .null)).getD .null) then "Found"
            else "Not Found")) ∧
      (List.lookup "Status" (resultRecord "undecane" .null) = some (.str "Found")
        ↔ pyTruthy ((List.lookup "SMILES"
            (resultRecord "undecane" .null)).getD .null) = true) :=
  status_found_iff_truthy_smiles envAllExn ["undecane"] 0.2
    (dataFrameOfRecords [resultRecord "undecane" .null]) rfl
    (resultRecord "undecane" .null) (List.Mem.head _)

/-- C10: on the empty input list — as produced, e.g., by
`process_compounds_from_file` on a file of blank lines — `batch_get_smiles`
returns `pd.DataFrame([])`: a table with zero rows and zero columns, not a
three-column empty table. -/
theorem batch_empty_input_no_columns (env : HttpEnv) (delay : ℚ) :
    (batch_get_smiles env [] delay).fst = .ok ⟨[], []⟩ ∧
      process_compounds_from_file env (fun _ => .content " \n  \n\t\n")
        "compound_list.txt" = .ok ⟨[], []⟩ :=
  ⟨rfl, rfl⟩
